import Mathlib

/-!
Verification of the mini-ChatGpt backend core (message-send lifecycle,
retry policy, adapters, conversation numbering, cursor pagination)
against its natural-language specification.

The definitions below are shallow embeddings of the TypeScript source:
  - `withRetryT`       embeds src/backend/src/utils/retry.ts (withRetry)
  - `sendHandler`, `catchV1`, `catchV2` embed the two revisions of
    POST /:id/messages in src/backend/src/routes/messages.ts
  - `getMessagesPage`  embeds GET /:id message pagination there
  - `createConversationRoute` embeds POST / in routes/conversations.ts
  - `adapterTimeoutMs` embeds the axios timeout configuration of
    adapters/mockAdapter.ts and adapters/ollamaAdapter.ts
-/

/-- A JavaScript error value as observed by the backend code: the
fields `name`, `code` and `message` are the only ones the source
inspects (`err.name`, `err.code`, `err.message`). -/
structure JsError where
  name : String
  code : String
  message : String
deriving DecidableEq, Repr

/-- The error thrown by `withRetry` and recognised by the route catch
blocks: `const abortError = new Error("Aborted"); abortError.name = "AbortError"`. -/
def abortErrorJs : JsError := ⟨"AbortError", "", "Aborted"⟩

/-- Prisma's error for `delete` on a non-existent record (code P2025):
`prisma.message.delete` REJECTS on a missing id, it is not a no-op. -/
def p2025Err : JsError := ⟨"PrismaClientKnownRequestError", "P2025", "Record to delete does not exist."⟩

/-- `err.name === "AbortError" || err.name === "CanceledError"` — the
error-name part of the abort test in utils/retry.ts. -/
def isAbortName (e : JsError) : Bool :=
  e.name == "AbortError" || e.name == "CanceledError"

/-- `s.includes(pat)` on strings, via character lists. -/
def charsStartWith : List Char → List Char → Bool
  | [], _ => true
  | _ :: _, [] => false
  | a :: as, b :: bs => a == b && charsStartWith as bs

def charsContain (pat : List Char) : List Char → Bool
  | [] => pat.isEmpty
  | c :: rest => charsStartWith pat (c :: rest) || charsContain pat rest

def strIncludes (s pat : String) : Bool := charsContain pat.toList s.toList

/-! ## The abort signal

A single `AbortController` is created per send; its signal is set once
(by the client-disconnect `cleanup` handler or never) and is terminal.
We model the disconnect event by an optional virtual time `abortT`;
each observation point of the code is assigned a virtual time, and the
signal reads aborted at observation time `c` iff the event fired at
some `t ≤ c`.

For `withRetry`, loop iteration `i` observes the signal at time `3*i`
(the pre-attempt check), at time `3*i+1` (the catch-block check, right
after the attempt), and the backoff sleep after iteration `i` spans
the open interval `(3*i+1, 3*(i+1))`. -/

def sigAb : Option Nat → Nat → Bool
  | none, _ => false
  | some t, c => decide (t ≤ c)

def abortsDuringSleep : Option Nat → Nat → Bool
  | none, _ => false
  | some t, i => decide (3 * i + 1 < t) && decide (t < 3 * (i + 1))

/-- Observable trace of one `withRetry` call: its outcome, how many
times the wrapped operation `fn` was invoked, and the list of backoff
waits that ran to completion. -/
structure RetryTrace (α : Type) where
  result : Except JsError α
  attempts : Nat
  delays : List Nat
deriving Repr

/-- Loop body of `withRetry` (utils/retry.ts).  `fn i` is the outcome
of invocation number `i` of the wrapped operation; `fuel` is the
number of loop iterations still allowed (`retries + 1 - i`, so the
fuel-0 case is never reached from `withRetryT`).

Source, for `i` in `0..retries`:
  - `if (signal?.aborted) throw abortError`  (pre-check, time `3*i`);
  - run `fn`; on success return the result;
  - in the catch: if the error's name is AbortError/CanceledError or
    the signal is aborted (time `3*i+1`), throw a fresh abortError;
  - else if `i < retries`, sleep `delayMs * (i+1)` ms in a promise that
    a signal listener rejects with abortError if the signal fires
    during the sleep; a completed sleep continues the loop;
  - after the loop, throw the last error. -/
def retryLoop (fn : Nat → Except JsError α) (abortT : Option Nat) (retries delayMs : Nat) :
    Nat → Nat → RetryTrace α
  | _, 0 => ⟨Except.error abortErrorJs, 0, []⟩
  | i, fuel + 1 =>
    if sigAb abortT (3 * i) then ⟨Except.error abortErrorJs, 0, []⟩
    else
      match fn i with
      | Except.ok a => ⟨Except.ok a, 1, []⟩
      | Except.error e =>
        if isAbortName e || sigAb abortT (3 * i + 1) then ⟨Except.error abortErrorJs, 1, []⟩
        else if i < retries then
          if abortsDuringSleep abortT i then ⟨Except.error abortErrorJs, 1, []⟩
          else
            let rest := retryLoop fn abortT retries delayMs (i + 1) fuel
            ⟨rest.result, rest.attempts + 1, delayMs * (i + 1) :: rest.delays⟩
        else ⟨Except.error e, 1, []⟩

/-- `withRetry(fn, retries, delayMs, signal)` from utils/retry.ts. -/
def withRetryT (fn : Nat → Except JsError α) (retries delayMs : Nat)
    (abortT : Option Nat) : RetryTrace α :=
  retryLoop fn abortT retries delayMs 0 (retries + 1)

/-- Retry count the send route passes to `withRetry` (messages.ts
revision 1: `withRetry(() => llm.complete(...), 2, 500, signal)`). -/
def routeRetryCount : Nat := 2

/-- Base delay the send route passes to `withRetry`. -/
def routeRetryDelayMs : Nat := 500

/-! ## Persistence gateway (Prisma message table) -/

inductive Role
  | user
  | assistant
deriving DecidableEq, Repr

structure Msg where
  id : Nat
  conversationId : String
  role : Role
  content : String
  createdAt : Nat
deriving DecidableEq, Repr

/-- The message table plus Prisma's id generator.  `createdAt` is taken
from the same monotone counter as the id, matching the source's cuid
ids and `now()` timestamps being monotone within one conversation. -/
structure Store where
  msgs : List Msg
  nextId : Nat
deriving DecidableEq, Repr

/-- `prisma.message.create` — appends a row with a fresh id. -/
def addMsg (st : Store) (cid : String) (r : Role) (content : String) : Store :=
  { msgs := st.msgs ++ [⟨st.nextId, cid, r, content, st.nextId⟩], nextId := st.nextId + 1 }

/-- Remove the row with the given id (the committed effect of a
successful delete, or of a delete whose rejection is swallowed). -/
def eraseMsg (st : Store) (i : Nat) : Store :=
  { st with msgs := st.msgs.filter (fun m => m.id != i) }

/-- Is a message with this id present? -/
def msgMem (st : Store) (i : Nat) : Bool :=
  st.msgs.any (fun m => m.id == i)

/-- `prisma.message.delete({ where: { id } })`: deletes the row, or
REJECTS with Prisma error P2025 when no such row exists. -/
def deleteMessage (st : Store) (i : Nat) : Except JsError Store :=
  if msgMem st i then Except.ok (eraseMsg st i) else Except.error p2025Err

/-! ## The send handler (POST /:id/messages), both revisions

Virtual observation times for one send:
  0 = pre-create check, 1 = checkpoint after the user-message write,
  2 = checkpoint after the history fetch, 3 = the LLM call / catch,
  4 = checkpoint after the assistant-message write, 5 = response sent.

The client-disconnect `cleanup` listener fires at the abort time: it
sets `isClientConnected = false`, aborts the controller, and issues a
fire-and-forget `prisma.message.delete` of the user message (guarded
by `.catch(() => {})`) when the user message exists and no response
was sent.  Both flags are set by the same event, so the checkpoints'
`signal.aborted || !isClientConnected` test is a single observation of
`sigAb`.  The cleanup's delete is issued before the checkpoint's own
delete, so the checkpoint's unguarded `await prisma.message.delete`
finds the row already gone and rejects with P2025, landing in the
route's catch block (the other interleaving ends in the same state). -/

/-- Terminal action of one send: the 200 success body, one JSON error
response, silence (no response, connection gone), or an exception that
escapes the handler uncaught (a rejection raised outside the
try/catch — express receives an unhandled rejection, no response and
no rollback are produced by the handler). -/
inductive SendAction
  | success
  | errorResp (status : Nat) (tag : String)
  | silent
  | uncaught (e : JsError)
deriving DecidableEq, Repr

/-- The catch blocks' abort test (identical in both revisions):
`signal.aborted || err.name === "AbortError" || err.name === "CanceledError"
 || err.code === "ECONNABORTED" || !isClientConnected`. -/
def isAbortedClass (ab : Option Nat) (tc : Nat) (e : JsError) : Bool :=
  sigAb ab tc || e.name == "AbortError" || e.name == "CanceledError" || e.code == "ECONNABORTED"

/-- Revision 1 timeout test: `err.code === "ETIMEDOUT" || err.message?.includes("timeout")`. -/
def isTimeoutV1 (e : JsError) : Bool :=
  e.code == "ETIMEDOUT" || strIncludes e.message "timeout"

/-- Revision 2 timeout test adds `err.message?.includes("timed out")`. -/
def isTimeoutV2 (e : JsError) : Bool :=
  e.code == "ETIMEDOUT" || strIncludes e.message "timeout" || strIncludes e.message "timed out"

/-- Revision 1 catch block (messages.ts lines 201-258): aborted →
delete the user message (guarded) and send nothing; timeout → 500
"LLM timeout" WITHOUT deleting; anything else → 500 "LLM failed"
WITHOUT deleting. -/
def catchV1 (ab : Option Nat) (tc : Nat) (uid : Nat) (st : Store) (e : JsError) :
    SendAction × Store :=
  if isAbortedClass ab tc e then (SendAction.silent, eraseMsg st uid)
  else if isTimeoutV1 e then (SendAction.errorResp 500 "LLM timeout", st)
  else (SendAction.errorResp 500 "LLM failed", st)

/-- Revision 2 catch block (second handler in messages.ts): every
branch runs `deleteUserMessage` (guarded) before its response. -/
def catchV2 (ab : Option Nat) (tc : Nat) (uid : Nat) (st : Store) (e : JsError) :
    SendAction × Store :=
  if isAbortedClass ab tc e then (SendAction.silent, eraseMsg st uid)
  else if e.code == "P2002" then (SendAction.errorResp 400 "conflict", eraseMsg st uid)
  else if e.code == "P2025" then (SendAction.errorResp 404 "not found", eraseMsg st uid)
  else if e.code == "P1001" || e.code == "P1008" || e.code == "P1017" then
    (SendAction.errorResp 503 "db unavailable", eraseMsg st uid)
  else if isTimeoutV2 e then (SendAction.errorResp 504 "timeout", eraseMsg st uid)
  else if e.code == "ECONNREFUSED" || e.code == "ENOTFOUND" then
    (SendAction.errorResp 503 "service unavailable", eraseMsg st uid)
  else (SendAction.errorResp 500 "ai service error", eraseMsg st uid)

/-- An abort-checkpoint of the handler, reached with the signal set:
the cleanup listener's fire-and-forget delete has removed the user
message, then the checkpoint's own unguarded
`await prisma.message.delete({ where: { id: userMsg.id } })` rejects
with P2025 and control lands in the catch block. -/
def checkpointAbort (catchFn : Option Nat → Nat → Nat → Store → JsError → SendAction × Store)
    (ab : Option Nat) (tc : Nat) (uid : Nat) (st : Store) : SendAction × Store :=
  let stC := eraseMsg st uid
  match deleteMessage stC uid with
  | Except.ok st' => (SendAction.silent, st')
  | Except.error e => catchFn ab tc uid stC e

/-- Environment of one send: when (if ever) the client disconnects,
and what the provider call resolves to if it is allowed to finish. -/
structure SendEnv where
  abortAt : Option Nat
  llmOutcome : Except JsError String
deriving Repr

structure SendResult where
  action : SendAction
  store : Store
  userMsgId : Option Nat
  assistantMsgId : Option Nat
deriving Repr

/-- The send handler's control flow, common to both revisions of
POST /:id/messages (they differ only in the catch block `catchFn`),
GIVEN that the two persistence calls preceding the try/catch — the
user-message create and the conversation lastMessageAt update — both
succeeded (its `addMsg` is that committed create; `fullSendHandler`
below adds the fallible pre-try steps): pre-create abort check (no
writes) → create user message → checkpoint → fetch history →
checkpoint → LLM call → catch on error / checkpoint on success →
create assistant message → final liveness check (the assistant row is
NOT rolled back there) → respond. -/
def sendHandler (catchFn : Option Nat → Nat → Nat → Store → JsError → SendAction × Store)
    (env : SendEnv) (convId content : String) (st0 : Store) : SendResult :=
  if sigAb env.abortAt 0 then ⟨SendAction.silent, st0, none, none⟩
  else
    let uid := st0.nextId
    let st1 := addMsg st0 convId Role.user content
    if sigAb env.abortAt 1 then
      let r := checkpointAbort catchFn env.abortAt 1 uid st1
      ⟨r.1, r.2, some uid, none⟩
    else if sigAb env.abortAt 2 then
      let r := checkpointAbort catchFn env.abortAt 2 uid st1
      ⟨r.1, r.2, some uid, none⟩
    else
      match env.llmOutcome with
      | Except.error e =>
        let st3 := if sigAb env.abortAt 3 then eraseMsg st1 uid else st1
        let r := catchFn env.abortAt 3 uid st3 e
        ⟨r.1, r.2, some uid, none⟩
      | Except.ok text =>
        if sigAb env.abortAt 3 then
          let r := checkpointAbort catchFn env.abortAt 3 uid st1
          ⟨r.1, r.2, some uid, none⟩
        else
          let aid := st1.nextId
          let st4 := addMsg st1 convId Role.assistant text
          if sigAb env.abortAt 4 then ⟨SendAction.silent, eraseMsg st4 uid, some uid, some aid⟩
          else ⟨SendAction.success, st4, some uid, some aid⟩

/-- Revision 1 of POST /:id/messages (first handler in messages.ts). -/
def handlerV1 : SendEnv → String → String → Store → SendResult :=
  sendHandler catchV1

/-- Revision 2 of POST /:id/messages (second handler in messages.ts). -/
def handlerV2 : SendEnv → String → String → Store → SendResult :=
  sendHandler catchV2

/-- The full handler of either revision, including the two persistence
calls that run BEFORE the try/catch:
`userMsg = await prisma.message.create(...)` followed by
`await prisma.conversation.update({ data: { lastMessageAt: ... } })`.
Neither is covered by the catch block, so a rejection of either
escapes the handler uncaught; in particular an `updateErr` rejection
(e.g. P1001, the database becoming unreachable) happens AFTER the
user-message create has committed and triggers no rollback.  When both
pre-try steps succeed, execution is the try/catch body `sendHandler`
(whose `addMsg` is the same committed create, re-taken from the same
pre-checked state). -/
def fullSendHandler (catchFn : Option Nat → Nat → Nat → Store → JsError → SendAction × Store)
    (createErr updateErr : Option JsError)
    (env : SendEnv) (convId content : String) (st0 : Store) : SendResult :=
  if sigAb env.abortAt 0 then ⟨SendAction.silent, st0, none, none⟩
  else
    match createErr with
    | some e => ⟨SendAction.uncaught e, st0, none, none⟩
    | none =>
      let uid := st0.nextId
      let st1 := addMsg st0 convId Role.user content
      match updateErr with
      | some e => ⟨SendAction.uncaught e, st1, some uid, none⟩
      | none => sendHandler catchFn env convId content st0

/-- Revision 1 of POST /:id/messages with its pre-try steps. -/
def handlerV1Full : Option JsError → Option JsError → SendEnv → String → String → Store → SendResult :=
  fullSendHandler catchV1

/-- Revision 2 of POST /:id/messages with its pre-try steps. -/
def handlerV2Full : Option JsError → Option JsError → SendEnv → String → String → Store → SendResult :=
  fullSendHandler catchV2

/-! ## Conversation creation (routes/conversations.ts)

The module holds `let convoCounter = 1;` — plain in-memory process
state — and `POST /` runs
`const title = "Conversation #" + convoCounter++;` before
`prisma.conversation.create({ data: { title } })`.  A process restart
re-initialises `convoCounter` to 1 while the database rows survive. -/

/-- In-memory counter plus the durable number of stored conversations. -/
structure ConvoProc where
  convoCounter : Nat
  storedCount : Nat
deriving DecidableEq, Repr

/-- `let convoCounter = 1;` -/
def convoCounterInit : Nat := 1

/-- A freshly started process over an empty database. -/
def freshProc : ConvoProc := ⟨convoCounterInit, 0⟩

/-- `POST /api/conversations`: returns the new title and the process
state afterwards (counter incremented, one more durable row). -/
def createConversationRoute (p : ConvoProc) : String × ConvoProc :=
  ("Conversation #" ++ toString p.convoCounter,
   ⟨p.convoCounter + 1, p.storedCount + 1⟩)

/-- Process restart: the in-memory counter is re-initialised, the
durable conversation rows survive. -/
def restartProcess (p : ConvoProc) : ConvoProc :=
  ⟨convoCounterInit, p.storedCount⟩

/-- Modelled from the spec: `Title = "Conversation #" + (durable count
of existing conversations + 1)` — the title §6 and P6 require; kept
separate so it can be compared with `createConversationRoute`. -/
def specTitle (storedCount : Nat) : String :=
  "Conversation #" ++ toString (storedCount + 1)

/-! ## Cursor pagination (GET /:id in routes/messages.ts)

`prisma.message.findMany({ orderBy: [{createdAt: "desc"}, {id: "desc"}],
take: limit + 1, cursor: cursor ? { id: cursor } : undefined,
skip: cursor ? 1 : 0 })`, then `hasMore = messages.length > limit`,
`sliced = hasMore ? messages.slice(0, limit) : messages`,
`reversed = sliced.reverse()`, `prevCursor = reversed[0]?.id || null`,
`nextCursor = hasMore ? messages[messages.length - 1].id : null`. -/

/-- `a` sorts no later than `b` under `[{createdAt: desc}, {id: desc}]`. -/
def descLe (a b : Msg) : Bool :=
  decide (b.createdAt < a.createdAt) ||
    (decide (a.createdAt = b.createdAt) && decide (b.id ≤ a.id))

def insertDesc (m : Msg) : List Msg → List Msg
  | [] => [m]
  | x :: xs => if descLe m x then m :: x :: xs else x :: insertDesc m xs

/-- The rows of one conversation in the order `findMany` returns them. -/
def sortDesc : List Msg → List Msg
  | [] => []
  | x :: xs => insertDesc x (sortDesc xs)

/-- Prisma cursor semantics: position at the row whose id is the
cursor and, with `skip: 1`, return what follows it. -/
def afterCursor (cid : Nat) : List Msg → List Msg
  | [] => []
  | x :: xs => if x.id == cid then xs else afterCursor cid xs

/-- The `limit + 1` rows `findMany` returns for one page request. -/
def pageQuery (st : Store) (conv : String) (limit : Nat) (cursor : Option Nat) : List Msg :=
  let sorted := sortDesc (st.msgs.filter (fun m => m.conversationId == conv))
  let positioned := match cursor with
    | none => sorted
    | some c => afterCursor c sorted
  positioned.take (limit + 1)

structure PageResult where
  messages : List Msg
  prevCursor : Option Nat
  nextCursor : Option Nat
deriving DecidableEq, Repr

/-- The page computation of GET /:id (identical in every revision). -/
def getMessagesPage (st : Store) (conv : String) (limit : Nat) (cursor : Option Nat) :
    PageResult :=
  let messages := pageQuery st conv limit cursor
  let hasMore := decide (messages.length > limit)
  let sliced := if hasMore then messages.take limit else messages
  let reversed := sliced.reverse
  let prevCursor := reversed.head?.map (fun m => m.id)
  let nextCursor := if hasMore then messages.getLast?.map (fun m => m.id) else none
  ⟨reversed, prevCursor, nextCursor⟩

/-- Concatenate successive pages by following `nextCursor` (`fuel`
bounds the number of page fetches; no messages are inserted between
fetches here). -/
def collectPages (st : Store) (conv : String) (limit : Nat) : Nat → Option Nat → List Msg
  | 0, _ => []
  | fuel + 1, cursor =>
    let p := getMessagesPage st conv limit cursor
    match p.nextCursor with
    | none => p.messages
    | some c => p.messages ++ collectPages st conv limit fuel (some c)

/-! ## Provider adapters (adapters/mockAdapter.ts, adapters/ollamaAdapter.ts) -/

inductive LlmAdapterKind
  | mockAdapter
  | ollamaAdapter
deriving DecidableEq, Repr

/-- The per-attempt axios deadline each adapter configures on its
outbound completion call: `{ timeout: 12000 }` in MockAdapter.complete,
`{ timeout: 120000 }` in OllamaAdapter.complete. -/
def adapterTimeoutMs : LlmAdapterKind → Nat
  | LlmAdapterKind.mockAdapter => 12000
  | LlmAdapterKind.ollamaAdapter => 120000

/-! ## Concrete errors used in witnesses and counterexamples -/

/-- An axios deadline error: code ECONNABORTED, message
"timeout of 12000ms exceeded" — what `llm.complete` throws when the
adapter's `timeout` elapses while the client is still connected. -/
def axiosTimeoutErr : JsError := ⟨"AxiosError", "ECONNABORTED", "timeout of 12000ms exceeded"⟩

/-- An upstream-server failure as the Ollama adapter surfaces it. -/
def upstreamErrJs : JsError := ⟨"Error", "", "Ollama returned a 500 error: internal"⟩

/-- A TCP-level connect timeout (node code ETIMEDOUT). -/
def etimedoutErr : JsError := ⟨"Error", "ETIMEDOUT", "connect ETIMEDOUT 10.0.0.1:443"⟩

/-- The Ollama adapter's own rewrap of its deadline overrun: its
message contains "timed out" but NOT "timeout". -/
def ollamaTimeoutRewrapErr : JsError :=
  ⟨"Error", "", "Ollama request timed out after 120 seconds"⟩

/-- Prisma's connectivity error (code P1001): the database cannot be
reached. -/
def p1001Err : JsError :=
  ⟨"PrismaClientInitializationError", "P1001", "Cannot reach database server"⟩

/-- Sample store: three messages of conversation "c" in chronological
order (ids 1, 2, 3 with increasing createdAt). -/
def store3 : Store :=
  ⟨[⟨1, "c", Role.user, "m1", 1⟩, ⟨2, "c", Role.assistant, "m2", 2⟩,
    ⟨3, "c", Role.user, "m3", 3⟩], 4⟩

/-! ## Helper lemmas -/

@[simp]
theorem sigAb_none (c : Nat) : sigAb none c = false := rfl

@[simp]
theorem abortsDuringSleep_none (i : Nat) : abortsDuringSleep none i = false := rfl

@[simp]
theorem sigAb_some (t c : Nat) : sigAb (some t) c = decide (t ≤ c) := rfl

@[simp]
theorem msgMem_eraseMsg_self (st : Store) (i : Nat) : msgMem (eraseMsg st i) i = false := by
  simp [msgMem, eraseMsg, List.any_eq_true, List.mem_filter]

@[simp]
theorem deleteMessage_eraseMsg_self (st : Store) (i : Nat) :
    deleteMessage (eraseMsg st i) i = Except.error p2025Err := by
  simp [deleteMessage]

@[simp]
theorem mem_eraseMsg (m : Msg) (st : Store) (i : Nat) :
    m ∈ (eraseMsg st i).msgs ↔ m ∈ st.msgs ∧ m.id ≠ i := by
  simp [eraseMsg, List.mem_filter]

@[simp]
theorem mem_addMsg (m : Msg) (st : Store) (cid : String) (r : Role) (c : String) :
    m ∈ (addMsg st cid r c).msgs ↔
      m ∈ st.msgs ∨ m = ⟨st.nextId, cid, r, c, st.nextId⟩ := by
  simp [addMsg]

theorem msgMem_iff (st : Store) (i : Nat) :
    msgMem st i = true ↔ ∃ m ∈ st.msgs, m.id = i := by
  simp [msgMem, List.any_eq_true]

theorem msgMem_addMsg_self (st : Store) (cid : String) (r : Role) (c : String) :
    msgMem (addMsg st cid r c) st.nextId = true := by
  rw [msgMem_iff]
  exact ⟨⟨st.nextId, cid, r, c, st.nextId⟩, by simp [addMsg], rfl⟩

theorem msgMem_eraseMsg_of_ne (st : Store) (i j : Nat) (h : j ≠ i) :
    msgMem (eraseMsg st i) j = msgMem st j := by
  rcases hm : msgMem st j with _ | _
  · apply Bool.eq_false_iff.mpr
    intro htrue
    rw [msgMem_iff] at htrue
    obtain ⟨m, mem, hid⟩ := htrue
    have : msgMem st j = true :=
      (msgMem_iff st j).mpr ⟨m, ((mem_eraseMsg m st i).mp mem).1, hid⟩
    rw [this] at hm
    exact Bool.noConfusion hm
  · rw [msgMem_iff] at hm ⊢
    obtain ⟨m, mem, hid⟩ := hm
    exact ⟨m, (mem_eraseMsg m st i).mpr ⟨mem, hid ▸ h⟩, hid⟩

/-- `catchV2` deletes the user message in every branch. -/
theorem catchV2_erases (ab : Option Nat) (tc uid : Nat) (st : Store) (e : JsError) :
    msgMem (catchV2 ab tc uid st e).2 uid = false := by
  unfold catchV2
  split
  · simp
  · split
    · simp
    · split
      · simp
      · split
        · simp
        · split
          · simp
          · split
            · simp
            · simp

/-- `catchV1` on an abort-classified error: rollback and silence. -/
theorem catchV1_aborted (ab : Option Nat) (tc uid : Nat) (st : Store) (e : JsError)
    (h : isAbortedClass ab tc e = true) :
    catchV1 ab tc uid st e = (SendAction.silent, eraseMsg st uid) := by
  unfold catchV1
  rw [h]
  simp

/-- `catchV2` on an abort-classified error: rollback and silence. -/
theorem catchV2_aborted (ab : Option Nat) (tc uid : Nat) (st : Store) (e : JsError)
    (h : isAbortedClass ab tc e = true) :
    catchV2 ab tc uid st e = (SendAction.silent, eraseMsg st uid) := by
  unfold catchV2
  rw [h]
  simp

/-- At an abort checkpoint the unguarded delete rejects with P2025 and
lands in the catch block on the already-cleaned store. -/
theorem checkpointAbort_eq (catchFn : Option Nat → Nat → Nat → Store → JsError → SendAction × Store)
    (ab : Option Nat) (tc uid : Nat) (st : Store) :
    checkpointAbort catchFn ab tc uid st = catchFn ab tc uid (eraseMsg st uid) p2025Err := by
  unfold checkpointAbort
  simp

/-- With both pre-try persistence steps succeeding, the full handler
is the try/catch body. -/
theorem fullSendHandler_ok
    (catchFn : Option Nat → Nat → Nat → Store → JsError → SendAction × Store)
    (env : SendEnv) (cid ct : String) (st0 : Store) :
    fullSendHandler catchFn none none env cid ct st0 = sendHandler catchFn env cid ct st0 := by
  unfold fullSendHandler
  by_cases h : sigAb env.abortAt 0 = true
  · rw [if_pos h]
    unfold sendHandler
    rw [if_pos h]
  · rw [if_neg h]

def fnAxiosTimeout : Nat → Except JsError String := fun _ => Except.error axiosTimeoutErr

theorem retryLoop_attempts_pos (fn : Nat → Except JsError α) (retries d i fuel : Nat)
    (hf : 0 < fuel) : 1 ≤ (retryLoop fn none retries d i fuel).attempts := by
  cases fuel with
  | zero => omega
  | succ k =>
    simp only [retryLoop, sigAb_none, Bool.false_eq_true, if_false]
    cases fn i with
    | ok a => simp
    | error e =>
      simp only [Bool.or_false]
      split
      · simp
      · split
        · split
          · simp
          · simp
        · simp

theorem retryLoop_allFail (es : Nat → JsError) (retries d : Nat)
    (hab : ∀ j, isAbortName (es j) = false) :
    ∀ fuel i, fuel = retries + 1 - i → i ≤ retries →
      (retryLoop (fun j => (Except.error (es j) : Except JsError String)) none retries d i fuel).result
          = Except.error (es retries)
      ∧ (retryLoop (fun j => (Except.error (es j) : Except JsError String)) none retries d i fuel).attempts
          = retries + 1 - i := by
  intro fuel
  induction fuel with
  | zero => intro i h1 h2; omega
  | succ k ih =>
    intro i h1 h2
    by_cases hi : i < retries
    · have hk : k = retries + 1 - (i + 1) := by omega
      have hrec := ih (i + 1) hk (by omega)
      simp only [retryLoop, sigAb_none, Bool.false_eq_true, if_false, hab i, Bool.or_false,
        hi, if_true, abortsDuringSleep_none]
      refine ⟨hrec.1, ?_⟩
      rw [hrec.2]
      omega
    · have hieq : i = retries := by omega
      subst hieq
      simp [retryLoop, hab i, hi]

theorem retryLoop_sleepAbort (fn : Nat → Except JsError String) (retries d m : Nat)
    (hm : m < retries)
    (hfail : ∀ j, j ≤ m → ∃ e, fn j = Except.error e ∧ isAbortName e = false) :
    ∀ fuel i, fuel = retries + 1 - i → i ≤ m →
      (retryLoop fn (some (3 * m + 2)) retries d i fuel).result = Except.error abortErrorJs
      ∧ (retryLoop fn (some (3 * m + 2)) retries d i fuel).attempts = m + 1 - i := by
  intro fuel
  induction fuel with
  | zero => intro i h1 h2; omega
  | succ k ih =>
    intro i h1 h2
    obtain ⟨e, hfe, habe⟩ := hfail i h2
    have hpre : sigAb (some (3 * m + 2)) (3 * i) = false := by
      simp only [sigAb_some, decide_eq_false_iff_not]
      omega
    have hpost : sigAb (some (3 * m + 2)) (3 * i + 1) = false := by
      simp only [sigAb_some, decide_eq_false_iff_not]
      omega
    by_cases him : i = m
    · subst him
      have hsleep : abortsDuringSleep (some (3 * i + 2)) i = true := by
        simp only [abortsDuringSleep, Bool.and_eq_true, decide_eq_true_eq]
        omega
      simp only [retryLoop, hpre, Bool.false_eq_true, if_false, hfe, habe, Bool.false_or,
        hpost, (show i < retries from hm), if_true, hsleep]
      exact ⟨by simp, by omega⟩
    · have hlt : i < m := by omega
      have hsleep : abortsDuringSleep (some (3 * m + 2)) i = false := by
        simp only [abortsDuringSleep, Bool.and_eq_false_iff, decide_eq_false_iff_not]
        omega
      have hk : k = retries + 1 - (i + 1) := by omega
      have hrec := ih (i + 1) hk (by omega)
      simp only [retryLoop, hpre, Bool.false_eq_true, if_false, hfe, habe, Bool.false_or,
        hpost, (show i < retries by omega), if_true, hsleep]
      refine ⟨hrec.1, ?_⟩
      rw [hrec.2]
      omega

/-- C2: the claim says only `UpstreamServerError` failures are retried
and that `Aborted` or `Timeout` failures are propagated immediately
with no further attempt.  Counterexample: an operation that always
fails with the provider deadline error (axios code ECONNABORTED,
message "timeout of 12000ms exceeded") is invoked 3 times by
`withRetry(fn, 2, 500)` — the timeout is retried twice, not propagated
immediately. -/
theorem C2_counterexample_timeout_retried :
    (withRetryT fnAxiosTimeout 2 500 none).attempts = 3
    ∧ (withRetryT fnAxiosTimeout 2 500 none).result = Except.error axiosTimeoutErr
    ∧ (withRetryT fnAxiosTimeout 2 500 none).attempts ≠ 1 := by
  refine ⟨rfl, rfl, by decide⟩

/-- C2 (amended): `withRetry` propagates immediately (as a fresh
AbortError, with no further attempt) exactly the failures whose error
name is AbortError/CanceledError or with the signal aborted; every
other failure — Timeout and UpstreamServerError alike — is retried
while attempts remain, and after exhausting retries the last error is
propagated. -/
theorem C2_amended_retry_classification :
    (∀ (e : JsError) (fn : Nat → Except JsError String) (retries d : Nat),
        fn 0 = Except.error e →
        ((isAbortName e = true →
            (withRetryT fn retries d none).attempts = 1 ∧
            (withRetryT fn retries d none).result = Except.error abortErrorJs) ∧
         (isAbortName e = false → 0 < retries →
            2 ≤ (withRetryT fn retries d none).attempts))) ∧
    (∀ (e : JsError) (fn : Nat → Except JsError String) (retries d : Nat),
        fn 0 = Except.error e →
        (withRetryT fn retries d (some 1)).attempts = 1 ∧
        (withRetryT fn retries d (some 1)).result = Except.error abortErrorJs) ∧
    (∀ (es : Nat → JsError) (retries d : Nat),
        (∀ j, isAbortName (es j) = false) →
        (withRetryT (fun j => (Except.error (es j) : Except JsError String)) retries d none).result
            = Except.error (es retries) ∧
        (withRetryT (fun j => (Except.error (es j) : Except JsError String)) retries d none).attempts
            = retries + 1) := by
  refine ⟨?_, ?_, ?_⟩
  · intro e fn retries d h0
    constructor
    · intro hab
      unfold withRetryT
      simp [retryLoop, h0, hab]
    · intro hab hr
      unfold withRetryT
      simp only [retryLoop, sigAb_none, Bool.false_eq_true, if_false, h0, hab, Bool.false_or,
        hr, if_true, abortsDuringSleep_none, Nat.zero_add]
      have := retryLoop_attempts_pos fn retries d 1 retries hr
      omega
  · intro e fn retries d h0
    unfold withRetryT
    simp [retryLoop, h0, sigAb]
  · intro es retries d hab
    have := retryLoop_allFail es retries d hab (retries + 1) 0 (by omega) (by omega)
    simpa [withRetryT] using this

theorem C2_amended_retry_classification_witness :
    2 ≤ (withRetryT fnAxiosTimeout 2 500 none).attempts
    ∧ (withRetryT fnAxiosTimeout 2 500 (some 1)).attempts = 1 :=
  ⟨(C2_amended_retry_classification.1 axiosTimeoutErr fnAxiosTimeout 2 500 rfl).2
     (by decide) (by decide),
   (C2_amended_retry_classification.2.1 axiosTimeoutErr fnAxiosTimeout 2 500 rfl).1⟩

/-- C3: with the send route's parameters `withRetry(fn, 2, 500)`, an
operation that always fails with a non-abort error (in particular an
`UpstreamServerError`) is invoked exactly 3 times, the completed
backoff waits are 500 ms then 1000 ms, and the final failure is the
last attempt's error. -/
theorem C3_retry_bound_and_backoff (es : Nat → JsError)
    (hab : ∀ j, isAbortName (es j) = false) :
    (withRetryT (fun j => (Except.error (es j) : Except JsError String))
        routeRetryCount routeRetryDelayMs none).attempts = 3 ∧
    (withRetryT (fun j => (Except.error (es j) : Except JsError String))
        routeRetryCount routeRetryDelayMs none).delays = [500, 1000] ∧
    (withRetryT (fun j => (Except.error (es j) : Except JsError String))
        routeRetryCount routeRetryDelayMs none).result = Except.error (es 2) := by
  have h0 := hab 0
  have h1 := hab 1
  have h2 := hab 2
  simp [withRetryT, routeRetryCount, routeRetryDelayMs, retryLoop, h0, h1, h2]

theorem C3_retry_bound_and_backoff_witness :
    (withRetryT (fun j => (Except.error ((fun _ => upstreamErrJs) j) : Except JsError String))
        routeRetryCount routeRetryDelayMs none).attempts = 3 ∧
    (withRetryT (fun j => (Except.error ((fun _ => upstreamErrJs) j) : Except JsError String))
        routeRetryCount routeRetryDelayMs none).delays = [500, 1000] ∧
    (withRetryT (fun j => (Except.error ((fun _ => upstreamErrJs) j) : Except JsError String))
        routeRetryCount routeRetryDelayMs none).result = Except.error upstreamErrJs :=
  C3_retry_bound_and_backoff (fun _ => upstreamErrJs)
    (fun _ => (by decide : isAbortName upstreamErrJs = false))

/-- C4: if the cancellation signal fires during the backoff sleep that
follows failing attempt `m` (virtual time `3*m+2`), `withRetry` rejects
with the fresh AbortError and the wrapped operation has been invoked
exactly `m+1` times — no further attempt is ever made. -/
theorem C4_cancellable_backoff (fn : Nat → Except JsError String) (retries d m : Nat)
    (hm : m < retries)
    (hfail : ∀ j, j ≤ m → ∃ e, fn j = Except.error e ∧ isAbortName e = false) :
    (withRetryT fn retries d (some (3 * m + 2))).result = Except.error abortErrorJs ∧
    (withRetryT fn retries d (some (3 * m + 2))).attempts = m + 1 := by
  have := retryLoop_sleepAbort fn retries d m hm hfail (retries + 1) 0 (by omega) (by omega)
  simpa [withRetryT] using this

theorem C4_cancellable_backoff_witness :
    (withRetryT (fun _ => (Except.error upstreamErrJs : Except JsError String)) 2 500
        (some 2)).result = Except.error abortErrorJs ∧
    (withRetryT (fun _ => (Except.error upstreamErrJs : Except JsError String)) 2 500
        (some 2)).attempts = 1 :=
  C4_cancellable_backoff (fun _ => Except.error upstreamErrJs) 2 500 0 (by decide)
    (fun _ _ => ⟨upstreamErrJs, rfl, by decide⟩)

/-- If the catch block always rolls the user message back (revision 2),
every path of the handler on which the assistant message was not
persisted leaves no user message behind. -/
theorem sendHandler_no_orphan
    (catchFn : Option Nat → Nat → Nat → Store → JsError → SendAction × Store)
    (hcatch : ∀ ab tc uid st e, msgMem (catchFn ab tc uid st e).2 uid = false)
    (env : SendEnv) (cid ct : String) (st0 : Store) (uid : Nat)
    (hassist : (sendHandler catchFn env cid ct st0).assistantMsgId = none)
    (huser : (sendHandler catchFn env cid ct st0).userMsgId = some uid) :
    msgMem (sendHandler catchFn env cid ct st0).store uid = false := by
  rcases env with ⟨ab, llm⟩
  cases h0 : sigAb ab 0 with
  | true => simp [sendHandler, h0] at huser
  | false =>
    cases h1 : sigAb ab 1 with
    | true =>
      simp only [sendHandler, h0, h1] at huser ⊢
      simp only [Bool.false_eq_true, if_false, if_true] at huser ⊢
      obtain rfl : st0.nextId = uid := by injection huser
      rw [checkpointAbort_eq]
      exact hcatch ab 1 st0.nextId _ p2025Err
    | false =>
      cases h2 : sigAb ab 2 with
      | true =>
        simp only [sendHandler, h0, h1, h2] at huser ⊢
        simp only [Bool.false_eq_true, if_false, if_true] at huser ⊢
        obtain rfl : st0.nextId = uid := by injection huser
        rw [checkpointAbort_eq]
        exact hcatch ab 2 st0.nextId _ p2025Err
      | false =>
        cases llm with
        | error e =>
          simp only [sendHandler, h0, h1, h2] at huser ⊢
          simp only [Bool.false_eq_true, if_false] at huser ⊢
          obtain rfl : st0.nextId = uid := by injection huser
          exact hcatch ab 3 st0.nextId _ e
        | ok text =>
          cases h3 : sigAb ab 3 with
          | true =>
            simp only [sendHandler, h0, h1, h2, h3] at huser ⊢
            simp only [Bool.false_eq_true, if_false, if_true] at huser ⊢
            obtain rfl : st0.nextId = uid := by injection huser
            rw [checkpointAbort_eq]
            exact hcatch ab 3 st0.nextId _ p2025Err
          | false =>
            cases h4 : sigAb ab 4 with
            | true => simp [sendHandler, h0, h1, h2, h3, h4] at hassist
            | false => simp [sendHandler, h0, h1, h2, h3, h4] at hassist

/-- If the catch block answers every abort-classified entry with
rollback and silence (true of both revisions), then a client
disconnect at any time up to the LLM call (virtual time ≤ 3, i.e.
before the assistant write) ends the handler silently with the user
message absent — even though the checkpoint's own unguarded delete
rejected with P2025 after the cleanup listener's delete won the race. -/
theorem sendHandler_abort_silent
    (catchFn : Option Nat → Nat → Nat → Store → JsError → SendAction × Store)
    (hcatch : ∀ ab tc uid st e, sigAb ab tc = true →
        catchFn ab tc uid st e = (SendAction.silent, eraseMsg st uid))
    (cid ct : String) (st0 : Store) (t : Nat) (llm : Except JsError String) (ht : t ≤ 3) :
    (sendHandler catchFn ⟨some t, llm⟩ cid ct st0).action = SendAction.silent
    ∧ ∀ uid, (sendHandler catchFn ⟨some t, llm⟩ cid ct st0).userMsgId = some uid →
        msgMem (sendHandler catchFn ⟨some t, llm⟩ cid ct st0).store uid = false := by
  cases h0 : sigAb (some t) 0 with
  | true =>
    refine ⟨by simp [sendHandler, h0], fun uid hu => ?_⟩
    simp [sendHandler, h0] at hu
  | false =>
    cases h1 : sigAb (some t) 1 with
    | true =>
      have hc := hcatch (some t) 1 st0.nextId
        (eraseMsg (addMsg st0 cid Role.user ct) st0.nextId) p2025Err h1
      constructor
      · simp only [sendHandler, h0, h1, Bool.false_eq_true, if_false, if_true]
        rw [checkpointAbort_eq, hc]
      · intro uid hu
        simp only [sendHandler, h0, h1, Bool.false_eq_true, if_false, if_true] at hu ⊢
        obtain rfl : st0.nextId = uid := by injection hu
        rw [checkpointAbort_eq, hc]
        simp
    | false =>
      cases h2 : sigAb (some t) 2 with
      | true =>
        have hc := hcatch (some t) 2 st0.nextId
          (eraseMsg (addMsg st0 cid Role.user ct) st0.nextId) p2025Err h2
        constructor
        · simp only [sendHandler, h0, h1, h2, Bool.false_eq_true, if_false, if_true]
          rw [checkpointAbort_eq, hc]
        · intro uid hu
          simp only [sendHandler, h0, h1, h2, Bool.false_eq_true, if_false, if_true] at hu ⊢
          obtain rfl : st0.nextId = uid := by injection hu
          rw [checkpointAbort_eq, hc]
          simp
      | false =>
        have ht3 : t = 3 := by
          simp only [sigAb_some, decide_eq_false_iff_not] at h2
          omega
        have h3 : sigAb (some t) 3 = true := by
          simp only [sigAb_some, decide_eq_true_eq]
          omega
        cases llm with
        | error e =>
          have hc := hcatch (some t) 3 st0.nextId
            (eraseMsg (addMsg st0 cid Role.user ct) st0.nextId) e h3
          constructor
          · simp only [sendHandler, h0, h1, h2, h3, Bool.false_eq_true, if_false, if_true]
            rw [hc]
          · intro uid hu
            simp only [sendHandler, h0, h1, h2, h3, Bool.false_eq_true, if_false, if_true] at hu ⊢
            obtain rfl : st0.nextId = uid := by injection hu
            rw [hc]
            simp
        | ok text =>
          have hc := hcatch (some t) 3 st0.nextId
            (eraseMsg (addMsg st0 cid Role.user ct) st0.nextId) p2025Err h3
          constructor
          · simp only [sendHandler, h0, h1, h2, h3, Bool.false_eq_true, if_false, if_true]
            rw [checkpointAbort_eq, hc]
          · intro uid hu
            simp only [sendHandler, h0, h1, h2, h3, Bool.false_eq_true, if_false, if_true] at hu ⊢
            obtain rfl : st0.nextId = uid := by injection hu
            rw [checkpointAbort_eq, hc]
            simp

/-- If every catch branch either leaves the store alone or deletes
exactly the user message (true of both revisions), then the handler
never touches pre-existing rows and never deletes a persisted
assistant message. -/
theorem sendHandler_frame
    (catchFn : Option Nat → Nat → Nat → Store → JsError → SendAction × Store)
    (hcatch : ∀ ab tc uid st e,
        (catchFn ab tc uid st e).2 = st ∨ (catchFn ab tc uid st e).2 = eraseMsg st uid)
    (env : SendEnv) (cid ct : String) (st0 : Store) :
    (∀ m, m ∈ st0.msgs → m.id ≠ st0.nextId →
        m ∈ (sendHandler catchFn env cid ct st0).store.msgs)
    ∧ (∀ aid, (sendHandler catchFn env cid ct st0).assistantMsgId = some aid →
        msgMem (sendHandler catchFn env cid ct st0).store aid = true) := by
  rcases env with ⟨ab, llm⟩
  cases h0 : sigAb ab 0 with
  | true =>
    refine ⟨fun m hm _ => by simpa [sendHandler, h0] using hm, fun aid ha => ?_⟩
    simp [sendHandler, h0] at ha
  | false =>
    cases h1 : sigAb ab 1 with
    | true =>
      refine ⟨fun m hm hne => ?_, fun aid ha => ?_⟩
      · simp only [sendHandler, h0, h1, Bool.false_eq_true, if_false, if_true]
        rw [checkpointAbort_eq]
        rcases hcatch ab 1 st0.nextId
          (eraseMsg (addMsg st0 cid Role.user ct) st0.nextId) p2025Err with hst | hst
        · rw [hst]
          simp [hm, hne]
        · rw [hst]
          simp [hm, hne]
      · simp [sendHandler, h0, h1] at ha
    | false =>
      cases h2 : sigAb ab 2 with
      | true =>
        refine ⟨fun m hm hne => ?_, fun aid ha => ?_⟩
        · simp only [sendHandler, h0, h1, h2, Bool.false_eq_true, if_false, if_true]
          rw [checkpointAbort_eq]
          rcases hcatch ab 2 st0.nextId
            (eraseMsg (addMsg st0 cid Role.user ct) st0.nextId) p2025Err with hst | hst
          · rw [hst]
            simp [hm, hne]
          · rw [hst]
            simp [hm, hne]
        · simp [sendHandler, h0, h1, h2] at ha
      | false =>
        cases llm with
        | error e =>
          refine ⟨fun m hm hne => ?_, fun aid ha => ?_⟩
          · simp only [sendHandler, h0, h1, h2, Bool.false_eq_true, if_false]
            rcases hcatch ab 3 st0.nextId
              (if sigAb ab 3 = true then eraseMsg (addMsg st0 cid Role.user ct) st0.nextId
               else addMsg st0 cid Role.user ct) e with hst | hst
            · rw [hst]
              split
              · simp [hm, hne]
              · simp [hm]
            · rw [hst]
              split
              · simp [hm, hne]
              · simp [hm, hne]
          · simp [sendHandler, h0, h1, h2] at ha
        | ok text =>
          cases h3 : sigAb ab 3 with
          | true =>
            refine ⟨fun m hm hne => ?_, fun aid ha => ?_⟩
            · simp only [sendHandler, h0, h1, h2, h3, Bool.false_eq_true, if_false, if_true]
              rw [checkpointAbort_eq]
              rcases hcatch ab 3 st0.nextId
                (eraseMsg (addMsg st0 cid Role.user ct) st0.nextId) p2025Err with hst | hst
              · rw [hst]
                simp [hm, hne]
              · rw [hst]
                simp [hm, hne]
            · simp [sendHandler, h0, h1, h2, h3] at ha
          | false =>
            cases h4 : sigAb ab 4 with
            | true =>
              refine ⟨fun m hm hne => ?_, fun aid ha => ?_⟩
              · simp only [sendHandler, h0, h1, h2, h3, h4, Bool.false_eq_true, if_false, if_true]
                simp [hm, hne]
              · simp only [sendHandler, h0, h1, h2, h3, h4, Bool.false_eq_true,
                  if_false, if_true] at ha ⊢
                obtain rfl : (addMsg st0 cid Role.user ct).nextId = aid := by injection ha
                rw [msgMem_eraseMsg_of_ne _ _ _ (by simp [addMsg])]
                exact msgMem_addMsg_self _ _ _ _
            | false =>
              refine ⟨fun m hm hne => ?_, fun aid ha => ?_⟩
              · simp only [sendHandler, h0, h1, h2, h3, h4, Bool.false_eq_true, if_false]
                simp [hm]
              · simp only [sendHandler, h0, h1, h2, h3, h4, Bool.false_eq_true,
                  if_false] at ha ⊢
                obtain rfl : (addMsg st0 cid Role.user ct).nextId = aid := by injection ha
                exact msgMem_addMsg_self _ _ _ _

theorem isAbortedClass_of_sigAb (ab : Option Nat) (tc : Nat) (e : JsError)
    (h : sigAb ab tc = true) : isAbortedClass ab tc e = true := by
  simp [isAbortedClass, h]

theorem catchV1_silent_of_sigAb (ab : Option Nat) (tc uid : Nat) (st : Store) (e : JsError)
    (h : sigAb ab tc = true) :
    catchV1 ab tc uid st e = (SendAction.silent, eraseMsg st uid) :=
  catchV1_aborted ab tc uid st e (isAbortedClass_of_sigAb ab tc e h)

theorem catchV2_silent_of_sigAb (ab : Option Nat) (tc uid : Nat) (st : Store) (e : JsError)
    (h : sigAb ab tc = true) :
    catchV2 ab tc uid st e = (SendAction.silent, eraseMsg st uid) :=
  catchV2_aborted ab tc uid st e (isAbortedClass_of_sigAb ab tc e h)

/-- Every `catchV1` branch either leaves the store alone (the timeout
and generic 500 responses) or deletes exactly the user message. -/
theorem catchV1_frame (ab : Option Nat) (tc uid : Nat) (st : Store) (e : JsError) :
    (catchV1 ab tc uid st e).2 = st ∨ (catchV1 ab tc uid st e).2 = eraseMsg st uid := by
  unfold catchV1
  split
  · right
    rfl
  · split
    · left
      rfl
    · left
      rfl

/-- Every `catchV2` branch deletes exactly the user message. -/
theorem catchV2_frame (ab : Option Nat) (tc uid : Nat) (st : Store) (e : JsError) :
    (catchV2 ab tc uid st e).2 = st ∨ (catchV2 ab tc uid st e).2 = eraseMsg st uid := by
  unfold catchV2
  split
  · right
    rfl
  · split
    · right
      rfl
    · split
      · right
        rfl
      · split
        · right
          rfl
        · split
          · right
            rfl
          · split
            · right
              rfl
            · right
              rfl

/-- C1: the claim says every send that fails or is cancelled before
the assistant message is persisted deletes its user message on every
abort/failure path.  Counterexample: in the revision-1 handler a
provider failure that is neither abort-classified nor timeout-shaped
(an upstream 500, client still connected) reaches the generic catch
branch, which responds 500 "LLM failed" WITHOUT deleting the user
message — a permanent orphan remains in storage. -/
theorem C1_counterexample_orphan_after_upstream_failure :
    (handlerV1 ⟨none, Except.error upstreamErrJs⟩ "c1" "hello" ⟨[], 0⟩).action
        = SendAction.errorResp 500 "LLM failed"
    ∧ (handlerV1 ⟨none, Except.error upstreamErrJs⟩ "c1" "hello" ⟨[], 0⟩).assistantMsgId = none
    ∧ (handlerV1 ⟨none, Except.error upstreamErrJs⟩ "c1" "hello" ⟨[], 0⟩).userMsgId = some 0
    ∧ msgMem (handlerV1 ⟨none, Except.error upstreamErrJs⟩ "c1" "hello" ⟨[], 0⟩).store 0 = true :=
  ⟨rfl, rfl, rfl, rfl⟩

/-- C1 (amended): when the pre-try persistence steps succeed, the
revision-2 handler deletes the user message on every abort/failure
path that ends before the assistant message is persisted; but in BOTH
revisions a rejection of the pre-try conversation-activity update —
which runs after the user-message create has committed and outside the
try/catch — escapes the handler uncaught with no rollback, leaving the
user message orphaned; and the revision-1 handler guarantees the
deletion only for cancelled sends (client disconnect at any point up
to the provider call), not for its non-abort failure responses. -/
theorem C1_amended_no_orphan :
    (∀ (ce : Option JsError) (env : SendEnv) (cid ct : String) (st0 : Store) (uid : Nat),
        (handlerV2Full ce none env cid ct st0).assistantMsgId = none →
        (handlerV2Full ce none env cid ct st0).userMsgId = some uid →
        msgMem (handlerV2Full ce none env cid ct st0).store uid = false)
    ∧ (∀ (e : JsError) (llm : Except JsError String) (cid ct : String) (st0 : Store),
        (handlerV2Full none (some e) ⟨none, llm⟩ cid ct st0).action = SendAction.uncaught e
        ∧ (handlerV2Full none (some e) ⟨none, llm⟩ cid ct st0).userMsgId = some st0.nextId
        ∧ msgMem (handlerV2Full none (some e) ⟨none, llm⟩ cid ct st0).store st0.nextId = true
        ∧ (handlerV1Full none (some e) ⟨none, llm⟩ cid ct st0).action = SendAction.uncaught e
        ∧ msgMem (handlerV1Full none (some e) ⟨none, llm⟩ cid ct st0).store st0.nextId = true)
    ∧ (∀ (cid ct : String) (st0 : Store) (t : Nat) (llm : Except JsError String) (uid : Nat),
        t ≤ 3 →
        (handlerV1Full none none ⟨some t, llm⟩ cid ct st0).userMsgId = some uid →
        msgMem (handlerV1Full none none ⟨some t, llm⟩ cid ct st0).store uid = false) := by
  refine ⟨?_, ?_, ?_⟩
  · intro ce env cid ct st0 uid ha hu
    cases ce with
    | some e =>
      by_cases h : sigAb env.abortAt 0 = true
      · simp [handlerV2Full, fullSendHandler, h] at hu
      · simp [handlerV2Full, fullSendHandler, h] at hu
    | none =>
      unfold handlerV2Full at ha hu
      show msgMem (fullSendHandler catchV2 none none env cid ct st0).store uid = false
      rw [fullSendHandler_ok] at ha hu ⊢
      exact sendHandler_no_orphan catchV2 catchV2_erases env cid ct st0 uid ha hu
  · intro e llm cid ct st0
    refine ⟨?_, ?_, ?_, ?_, ?_⟩ <;>
      simp [handlerV1Full, handlerV2Full, fullSendHandler, msgMem_addMsg_self]
  · intro cid ct st0 t llm uid ht hu
    unfold handlerV1Full at hu
    show msgMem (fullSendHandler catchV1 none none ⟨some t, llm⟩ cid ct st0).store uid = false
    rw [fullSendHandler_ok] at hu ⊢
    exact (sendHandler_abort_silent catchV1 catchV1_silent_of_sigAb cid ct st0 t llm ht).2 uid hu

theorem C1_amended_no_orphan_witness :
    msgMem (handlerV2Full none none ⟨none, Except.error upstreamErrJs⟩
        "c1" "hello" ⟨[], 0⟩).store 0 = false
    ∧ msgMem (handlerV2Full none (some p1001Err) ⟨none, Except.error upstreamErrJs⟩
        "c1" "hello" ⟨[], 0⟩).store 0 = true :=
  ⟨C1_amended_no_orphan.1 none ⟨none, Except.error upstreamErrJs⟩ "c1" "hello" ⟨[], 0⟩ 0 rfl rfl,
   (C1_amended_no_orphan.2.1 p1001Err (Except.error upstreamErrJs) "c1" "hello" ⟨[], 0⟩).2.2.1⟩

/-- C8: rollback deletion never fails the terminal action.  A client
disconnect at any point before the assistant write makes the cleanup
listener delete the user message; the abort checkpoint's own unguarded
`await prisma.message.delete` then rejects with P2025 on the missing
id, but the rejection is contained by the catch block: in both
revisions the handler still ends silently (the correct terminal action
for an aborted send) with the user message absent — the deletion error
never escapes to fail the response path. -/
theorem C8_rollback_deletion_contained (cid ct : String) (st0 : Store) (t : Nat)
    (llm : Except JsError String) (ht : t ≤ 3) :
    ((handlerV1 ⟨some t, llm⟩ cid ct st0).action = SendAction.silent
      ∧ ∀ uid, (handlerV1 ⟨some t, llm⟩ cid ct st0).userMsgId = some uid →
          msgMem (handlerV1 ⟨some t, llm⟩ cid ct st0).store uid = false)
    ∧ ((handlerV2 ⟨some t, llm⟩ cid ct st0).action = SendAction.silent
      ∧ ∀ uid, (handlerV2 ⟨some t, llm⟩ cid ct st0).userMsgId = some uid →
          msgMem (handlerV2 ⟨some t, llm⟩ cid ct st0).store uid = false) :=
  ⟨sendHandler_abort_silent catchV1 catchV1_silent_of_sigAb cid ct st0 t llm ht,
   sendHandler_abort_silent catchV2 catchV2_silent_of_sigAb cid ct st0 t llm ht⟩

theorem C8_rollback_deletion_contained_witness :
    (handlerV1 ⟨some 1, Except.ok "r"⟩ "c" "hi" ⟨[], 0⟩).action = SendAction.silent
    ∧ msgMem (handlerV1 ⟨some 1, Except.ok "r"⟩ "c" "hi" ⟨[], 0⟩).store 0 = false
    ∧ (handlerV2 ⟨some 1, Except.ok "r"⟩ "c" "hi" ⟨[], 0⟩).action = SendAction.silent :=
  ⟨(C8_rollback_deletion_contained "c" "hi" ⟨[], 0⟩ 1 (Except.ok "r") (by decide)).1.1,
   (C8_rollback_deletion_contained "c" "hi" ⟨[], 0⟩ 1 (Except.ok "r") (by decide)).1.2 0 rfl,
   (C8_rollback_deletion_contained "c" "hi" ⟨[], 0⟩ 1 (Except.ok "r") (by decide)).2.1⟩

/-- C10: no path of either revision of the send handler ever deletes a
persisted assistant message, and every rollback/cleanup delete targets
only the user message of that send: pre-existing rows always survive,
and whenever an assistant message was persisted it is still in storage
at the end — including the disconnect-after-assistant-write path,
where the user message is deleted by the disconnect handler but the
assistant message remains. -/
theorem C10_assistant_message_never_deleted (env : SendEnv) (cid ct : String) (st0 : Store) :
    ((∀ m, m ∈ st0.msgs → m.id ≠ st0.nextId →
        m ∈ (handlerV1 env cid ct st0).store.msgs)
      ∧ (∀ aid, (handlerV1 env cid ct st0).assistantMsgId = some aid →
          msgMem (handlerV1 env cid ct st0).store aid = true))
    ∧ ((∀ m, m ∈ st0.msgs → m.id ≠ st0.nextId →
        m ∈ (handlerV2 env cid ct st0).store.msgs)
      ∧ (∀ aid, (handlerV2 env cid ct st0).assistantMsgId = some aid →
          msgMem (handlerV2 env cid ct st0).store aid = true)) :=
  ⟨sendHandler_frame catchV1 catchV1_frame env cid ct st0,
   sendHandler_frame catchV2 catchV2_frame env cid ct st0⟩

theorem C10_assistant_message_never_deleted_witness :
    msgMem (handlerV1 ⟨some 4, Except.ok "r"⟩ "c" "hi" ⟨[], 0⟩).store 1 = true
    ∧ msgMem (handlerV1 ⟨some 4, Except.ok "r"⟩ "c" "hi" ⟨[], 0⟩).store 0 = false :=
  ⟨(C10_assistant_message_never_deleted ⟨some 4, Except.ok "r"⟩ "c" "hi" ⟨[], 0⟩).1.2 1 rfl,
   rfl⟩

/-- C7: the claim says a provider deadline overrun (client still
connected) yields rollback and a 504, and no other status.
Counterexample: the revision-1 handler answers a timeout-classified
error (code ETIMEDOUT) with status 500 ("LLM timeout") and leaves the
user message in storage; and the revision-2 handler answers the mock
adapter's own deadline error (axios code ECONNABORTED,
"timeout of 12000ms exceeded") with NO response at all (it is
classified as aborted), not a 504. -/
theorem C7_counterexample_timeout_not_504 :
    (handlerV1 ⟨none, Except.error etimedoutErr⟩ "c1" "hello" ⟨[], 0⟩).action
        = SendAction.errorResp 500 "LLM timeout"
    ∧ msgMem (handlerV1 ⟨none, Except.error etimedoutErr⟩ "c1" "hello" ⟨[], 0⟩).store 0 = true
    ∧ (handlerV2 ⟨none, Except.error axiosTimeoutErr⟩ "c1" "hello" ⟨[], 0⟩).action
        = SendAction.silent :=
  ⟨rfl, rfl, rfl⟩

/-- C7 (amended): for a provider failure that is timeout-classified
but not abort-classified (code ETIMEDOUT, or a message containing
"timeout"/"timed out", and not one of the database codes), with the
client connected, the revision-2 handler deletes the user message and
responds 504 while the revision-1 handler responds 500 (its timeout
branch when the error also matches revision 1's narrower test, its
generic branch otherwise — e.g. the Ollama "timed out" rewrap) without
the rollback; a deadline error surfacing as axios code ECONNABORTED is
classified as aborted in both revisions and yields rollback with no
response at all. -/
theorem C7_amended_timeout_responses :
    (∀ (e : JsError) (cid ct : String) (st0 : Store),
        isAbortedClass none 3 e = false →
        (e.code == "P2002") = false → (e.code == "P2025") = false →
        (e.code == "P1001") = false → (e.code == "P1008") = false →
        (e.code == "P1017") = false →
        isTimeoutV2 e = true →
        (handlerV2 ⟨none, Except.error e⟩ cid ct st0).action
            = SendAction.errorResp 504 "timeout"
        ∧ msgMem (handlerV2 ⟨none, Except.error e⟩ cid ct st0).store st0.nextId = false
        ∧ (handlerV1 ⟨none, Except.error e⟩ cid ct st0).action
            = SendAction.errorResp 500
                (if isTimeoutV1 e = true then "LLM timeout" else "LLM failed")
        ∧ msgMem (handlerV1 ⟨none, Except.error e⟩ cid ct st0).store st0.nextId = true)
    ∧ (∀ (e : JsError) (cid ct : String) (st0 : Store),
        (e.code == "ECONNABORTED") = true →
        (handlerV1 ⟨none, Except.error e⟩ cid ct st0).action = SendAction.silent
        ∧ msgMem (handlerV1 ⟨none, Except.error e⟩ cid ct st0).store st0.nextId = false
        ∧ (handlerV2 ⟨none, Except.error e⟩ cid ct st0).action = SendAction.silent
        ∧ msgMem (handlerV2 ⟨none, Except.error e⟩ cid ct st0).store st0.nextId = false) := by
  constructor
  · intro e cid ct st0 hab hp1 hp2 hp3 hp4 hp5 ht2
    have hv2 : handlerV2 ⟨none, Except.error e⟩ cid ct st0
        = ⟨(catchV2 none 3 st0.nextId (addMsg st0 cid Role.user ct) e).1,
           (catchV2 none 3 st0.nextId (addMsg st0 cid Role.user ct) e).2,
           some st0.nextId, none⟩ := by
      simp [handlerV2, sendHandler]
    have hv1 : handlerV1 ⟨none, Except.error e⟩ cid ct st0
        = ⟨(catchV1 none 3 st0.nextId (addMsg st0 cid Role.user ct) e).1,
           (catchV1 none 3 st0.nextId (addMsg st0 cid Role.user ct) e).2,
           some st0.nextId, none⟩ := by
      simp [handlerV1, sendHandler]
    rw [hv1, hv2]
    unfold catchV1 catchV2
    cases ht1 : isTimeoutV1 e with
    | true =>
      simp only [hab, hp1, hp2, hp3, hp4, hp5, ht1, ht2, Bool.false_eq_true, Bool.or_self,
        if_false, if_true]
      refine ⟨?_, ?_, ?_, ?_⟩ <;> simp [msgMem_addMsg_self]
    | false =>
      simp only [hab, hp1, hp2, hp3, hp4, hp5, ht1, ht2, Bool.false_eq_true, Bool.or_self,
        if_false, if_true]
      refine ⟨?_, ?_, ?_, ?_⟩ <;> simp [msgMem_addMsg_self]
  · intro e cid ct st0 hcode
    have hab : isAbortedClass none 3 e = true := by
      simp [isAbortedClass, hcode]
    have hv2 : handlerV2 ⟨none, Except.error e⟩ cid ct st0
        = ⟨(catchV2 none 3 st0.nextId (addMsg st0 cid Role.user ct) e).1,
           (catchV2 none 3 st0.nextId (addMsg st0 cid Role.user ct) e).2,
           some st0.nextId, none⟩ := by
      simp [handlerV2, sendHandler]
    have hv1 : handlerV1 ⟨none, Except.error e⟩ cid ct st0
        = ⟨(catchV1 none 3 st0.nextId (addMsg st0 cid Role.user ct) e).1,
           (catchV1 none 3 st0.nextId (addMsg st0 cid Role.user ct) e).2,
           some st0.nextId, none⟩ := by
      simp [handlerV1, sendHandler]
    rw [hv1, hv2, catchV1_aborted _ _ _ _ _ hab, catchV2_aborted _ _ _ _ _ hab]
    refine ⟨?_, ?_, ?_, ?_⟩ <;> simp

theorem C7_amended_timeout_responses_witness :
    (handlerV2 ⟨none, Except.error etimedoutErr⟩ "c1" "hello" ⟨[], 0⟩).action
        = SendAction.errorResp 504 "timeout"
    ∧ msgMem (handlerV2 ⟨none, Except.error etimedoutErr⟩ "c1" "hello" ⟨[], 0⟩).store 0 = false
    ∧ (handlerV2 ⟨none, Except.error ollamaTimeoutRewrapErr⟩ "c1" "hello" ⟨[], 0⟩).action
        = SendAction.errorResp 504 "timeout"
    ∧ (handlerV1 ⟨none, Except.error ollamaTimeoutRewrapErr⟩ "c1" "hello" ⟨[], 0⟩).action
        = SendAction.errorResp 500 "LLM failed" := by
  have h1 := C7_amended_timeout_responses.1 etimedoutErr "c1" "hello" ⟨[], 0⟩ (by decide)
    (by decide) (by decide) (by decide) (by decide) (by decide) (by decide)
  have h2 := C7_amended_timeout_responses.1 ollamaTimeoutRewrapErr "c1" "hello" ⟨[], 0⟩
    (by decide) (by decide) (by decide) (by decide) (by decide) (by decide) (by decide)
  exact ⟨h1.1, h1.2.1, h2.1, h2.2.2.1⟩

/-- C5: the claim says the conversation title is derived from the
durable stored count (`"Conversation #(N+1)"` after N prior
conversations, even across a restart).  The route instead uses the
module-level in-memory `convoCounter`: after two conversations are
created and the process restarts, the durable count is 2 but the next
created conversation is titled "Conversation #1" (counter reset), not
the "Conversation #3" the claim requires. -/
theorem C5_title_counter_resets_on_restart :
    (createConversationRoute (restartProcess
        (createConversationRoute (createConversationRoute freshProc).2).2)).1
      = "Conversation #1"
    ∧ (restartProcess
        (createConversationRoute (createConversationRoute freshProc).2).2).storedCount = 2
    ∧ specTitle (restartProcess
        (createConversationRoute (createConversationRoute freshProc).2).2).storedCount
      = "Conversation #3"
    ∧ ("Conversation #1" : String) ≠ "Conversation #3" :=
  ⟨rfl, rfl, rfl, by decide⟩

/-- C6: the claim says concatenating successive pages (following
`nextCursor`) yields all N messages in chronological order with none
skipped or duplicated.  On three stored messages (ids 1, 2, 3 in
chronological order) with page size 1, the pages are [m3] then [m1]:
message 2 is skipped, because `nextCursor` is taken from the extra
peeked row (`messages[messages.length - 1]` of the `limit + 1` rows)
and the next fetch skips that row (`skip: 1`) — and the page sequence
runs newest-first, not chronologically. -/
theorem C6_pagination_skips_boundary_message :
    ((collectPages store3 "c" 1 5 none).map (fun m => m.id)) = [3, 1]
    ∧ ¬ (2 ∈ (collectPages store3 "c" 1 5 none).map (fun m => m.id))
    ∧ ((collectPages store3 "c" 1 5 none).map (fun m => m.id)) ≠ [1, 2, 3] :=
  ⟨rfl, by decide, by decide⟩

/-- C9: the claim says every provider variant enforces the same fixed
12-second deadline per attempt.  Counterexample: the local-model
(Ollama) adapter configures `timeout: 120000` — 120 seconds, not
12000 ms. -/
theorem C9_counterexample_ollama_deadline :
    adapterTimeoutMs LlmAdapterKind.ollamaAdapter = 120000
    ∧ adapterTimeoutMs LlmAdapterKind.ollamaAdapter ≠ 12000 :=
  ⟨rfl, by decide⟩

/-- C9 (amended): the mock variant enforces a 12-second per-attempt
deadline on its outbound completion call, the local-model (Ollama)
variant a 120-second one. -/
theorem C9_amended_adapter_deadlines :
    adapterTimeoutMs LlmAdapterKind.mockAdapter = 12000
    ∧ adapterTimeoutMs LlmAdapterKind.ollamaAdapter = 120000 :=
  ⟨rfl, rfl⟩
